import Mathlib

set_option maxRecDepth 10000

/-!
Verification of the news-rss-with-llm pipeline.

Shallow embedding of the core pipeline of the repository:
the Redis-backed job queue (`services/queue`), the article store
(`services/db.ts`), the worker orchestration (`worker.ts`), the HTTP
content extraction tier (`services/content.ts`), the Chrome remote
debugging scraper (`services/chrome-scraper.ts`) and the AI response
parsing chain (`services/ai.ts`).  Stateful code is modelled by explicit
state passing, fallible code by `Except`/`Option`, and JavaScript strings
by Lean `String` (or `List Char` where character-level operations matter).
-/

namespace NewsRss

/-! ## Job queue (services/queue, `pushJob` / `popJob`)

The queue is a single Redis list `newsrss:jobs`; `pushJob` LPUSHes the
JSON serialization of the job, `popJob` RPOPs and parses.  The Redis list
is modelled as a `List Json` whose head is the "left" end. -/

/-- Optional RSS metadata carried by a queue job (`QueueJob.meta`). -/
structure JobMeta where
  title : Option String
  published : Option String
  content : Option String
  description : Option String
deriving DecidableEq

/-- A queued work item (`QueueJob` in services/queue). -/
structure QueueJob where
  url : String
  feedName : String
  category : String
  css_selector : String
  meta : Option JobMeta
deriving DecidableEq

/-- JSON values, as produced by `JSON.stringify` on a queue job.  Only the
shapes that the job serialization uses are needed. -/
inductive Json where
  | jstr : String → Json
  | jobj : List (String × Json) → Json

/-- Field lookup in a JSON object (first binding wins, as in a JS object). -/
def jlookup (fields : List (String × Json)) (k : String) : Option Json :=
  match fields.find? (fun p => p.1 == k) with
  | some p => some p.2
  | none => none

/-- Read a JSON value as a string. -/
def asStr : Option Json → Option String
  | some (.jstr s) => some s
  | _ => none

/-- `JSON.stringify` omits `undefined`-valued fields: an optional string
field serializes to either nothing or a single string binding. -/
def optField (k : String) : Option String → List (String × Json)
  | none => []
  | some v => [(k, .jstr v)]

/-- Serialization of the `meta` sub-object. -/
def encodeMeta (m : JobMeta) : Json :=
  .jobj (optField "title" m.title ++ optField "published" m.published ++
    optField "content" m.content ++ optField "description" m.description)

/-- Parse of the `meta` sub-object (`JSON.parse` followed by the
`as QueueJob` field reads). -/
def decodeMeta : Json → Option JobMeta
  | .jobj f =>
      some { title := asStr (jlookup f "title"),
             published := asStr (jlookup f "published"),
             content := asStr (jlookup f "content"),
             description := asStr (jlookup f "description") }
  | _ => none

/-- Serialization of a whole job, as `JSON.stringify(job)` in `pushJob`. -/
def encodeJob (j : QueueJob) : Json :=
  .jobj ([("url", .jstr j.url), ("feedName", .jstr j.feedName),
          ("category", .jstr j.category), ("css_selector", .jstr j.css_selector)] ++
    (match j.meta with
     | none => []
     | some m => [("meta", encodeMeta m)]))

/-- Parse of a whole job, as `JSON.parse(job) as QueueJob` in `popJob`. -/
def decodeJob : Json → Option QueueJob
  | .jobj f =>
      match asStr (jlookup f "url"), asStr (jlookup f "feedName"),
            asStr (jlookup f "category"), asStr (jlookup f "css_selector") with
      | some u, some fn, some c, some s =>
          match jlookup f "meta" with
          | none => some { url := u, feedName := fn, category := c,
                           css_selector := s, meta := none }
          | some mj =>
              match decodeMeta mj with
              | some m => some { url := u, feedName := fn, category := c,
                                 css_selector := s, meta := some m }
              | none => none
      | _, _, _, _ => none
  | _ => none

/-- `pushJob`: `redis.lpush(QUEUE_NAME, JSON.stringify(job))` — push the
serialized job at the left end of the list. -/
def pushJob (j : QueueJob) (q : List Json) : List Json :=
  encodeJob j :: q

/-- `popJob`: `redis.rpop(QUEUE_NAME)` — take from the right end; an empty
list yields `nil`, reported to the caller as `null` without blocking. -/
def popJob (q : List Json) : Option QueueJob × List Json :=
  match q.getLast? with
  | none => (none, q)
  | some v => (decodeJob v, q.dropLast)

/-- A sequence of `pushJob` calls by a single sequential client. -/
def enqueueAll (js : List QueueJob) (q : List Json) : List Json :=
  js.foldl (fun acc j => pushJob j acc) q

/-- `n` successive `popJob` calls by a single sequential client. -/
def dequeueN : Nat → List Json → List (Option QueueJob) × List Json
  | 0, q => ([], q)
  | n + 1, q =>
      let r := popJob q
      let rs := dequeueN n r.2
      (r.1 :: rs.1, rs.2)

/-! ## Article store (services/db.ts)

The `articles` table is modelled as a list of stored rows; `article_url`
is the primary key.  `insertArticle` validates, truncates the bounded
columns, checks for an existing row with the same (truncated) url, and
only inserts when none exists.  The returned `Bool` records whether the
insert statement ran. -/

/-- The `Article` interface of services/db.ts (timestamps as `Nat`; a JS
`Date` object is always truthy so the timestamp fields never fail the
falsiness validation). -/
structure Article where
  article_url : String
  feed_name : String
  category : String
  title : String
  content : String
  summary : String
  keywords : String
  published_at : Nat
  processed_at : Nat
  notification_sent : Bool
deriving DecidableEq

/-- A stored row of the `articles` table (the truncated `articleData`). -/
structure StoredArticle where
  article_url : String
  feed_name : String
  category : String
  title : String
  content : String
  summary : String
  keywords : String
  published_at : Nat
  processed_at : Nat
  notification_sent : Bool
deriving DecidableEq

/-- JavaScript `s.substring(0, n)`: the first `n` characters. -/
def jsSubstring (s : String) (n : Nat) : String :=
  ⟨s.data.take n⟩

/-- The field validation at the top of `insertArticle`: every required
string field must be truthy (non-empty). -/
def validArticle (a : Article) : Bool :=
  !(a.article_url == "") && !(a.feed_name == "") && !(a.category == "") &&
  !(a.title == "") && !(a.content == "") && !(a.summary == "") &&
  !(a.keywords == "")

/-- The `articleData` object built by `insertArticle`: strings truncated
to the column lengths (url 1000, feed_name 100, category 100, title 500). -/
def truncArticle (a : Article) : StoredArticle :=
  { article_url := jsSubstring a.article_url 1000,
    feed_name := jsSubstring a.feed_name 100,
    category := jsSubstring a.category 100,
    title := jsSubstring a.title 500,
    content := a.content,
    summary := a.summary,
    keywords := a.keywords,
    published_at := a.published_at,
    processed_at := a.processed_at,
    notification_sent := a.notification_sent || false }

/-- The duplicate-existence query of `insertArticle`:
`db('articles').where('article_url', articleData.article_url).first()`. -/
def dbHasUrl (db : List StoredArticle) (url : String) : Bool :=
  db.any (fun r => r.article_url == url)

/-- `insertArticle`: validate, truncate, skip when a row with the same
(truncated) url exists, otherwise insert.  Returns whether the insert
statement ran, plus the new table state; a validation failure throws. -/
def insertArticle (a : Article) (db : List StoredArticle) :
    Except String (Bool × List StoredArticle) :=
  if !(validArticle a) then
    .error "Missing required fields in article data"
  else
    let d := truncArticle a
    if dbHasUrl db d.article_url then
      .ok (false, db)
    else
      .ok (true, db ++ [d])

/-- Number of stored rows whose `article_url` equals `url`. -/
def rowCount (db : List StoredArticle) (url : String) : Nat :=
  (db.filter (fun r => r.article_url == url)).length

/-! ## HTTP content extraction tier (services/content.ts)

`extractContentWithHttp` fetches the page (up to 3 attempts with
exponential backoff 2s, 4s), selects content by CSS selector and cleans
whitespace.  A fetched page is modelled as a function from selector to
the optional text of its matches (`none` = no element matched). -/

/-- Whitespace characters recognized by the JS `\s` class and `trim`
(restricted to the ASCII ones, which are the only ones the pipeline's
inputs use). -/
def isJsWs (c : Char) : Bool :=
  c == ' ' || c == '\t' || c == '\n' || c == '\r' || c == '\x0b' || c == '\x0c'

/-- The substitution `.replace(/\s+/g, ' ')`: collapse each maximal
whitespace run into a single space. -/
def collapseWs (l : List Char) : List Char :=
  match l with
  | [] => []
  | c :: rest =>
      if isJsWs c then ' ' :: collapseWs (rest.dropWhile isJsWs)
      else c :: collapseWs rest
termination_by l.length
decreasing_by
· exact Nat.lt_succ_of_le (List.dropWhile_suffix isJsWs).sublist.length_le
· simp

/-- JavaScript `trim()`: drop whitespace at both ends. -/
def trimChars (l : List Char) : List Char :=
  ((l.dropWhile isJsWs).reverse.dropWhile isJsWs).reverse

/-- The content cleanup of `extractContentWithHttp`:
`.replace(/\s+/g, ' ').trim()`. -/
def cleanContent (s : String) : String :=
  ⟨trimChars (collapseWs s.data)⟩

/-- JavaScript `trim()` on a `String`. -/
def jsTrim (s : String) : String :=
  ⟨trimChars s.data⟩

/-- The default article-container selectors probed by the HTTP tier, in
source order. -/
def defaultSelectors : List String :=
  ["article", ".article-content", ".post-content", ".entry-content",
   ".articlebody", ".story-body", ".content", "main"]

/-- A fetched page: `$(selector)` either matches no element (`none`) or
yields the concatenated text of its matches (`some t`). -/
def Page := String → Option String

/-- The default-selector probe loop of `extractContentWithHttp`: the text
of the first selector with at least one matching element
(`element.length > 0`) — taken even when that text is empty; selectors
matching nothing are skipped. -/
def probeLoop (page : Page) : List String → String
  | [] => ""
  | s :: rest =>
      match page s with
      | some t => t
      | none => probeLoop page rest

/-- Content selection within a successful fetch: the caller-supplied
selector when present (`$(cssSelector).text()`, empty when nothing
matches), else the default-selector probe. -/
def selectContent (page : Page) (cssSelector : Option String) : String :=
  match cssSelector with
  | some sel => (page sel).getD ""
  | none => probeLoop page defaultSelectors

/-- `baseDelay` of the HTTP tier (milliseconds). -/
def baseDelay : Nat := 2000

/-- `maxRetries` of the HTTP tier. -/
def maxRetries : Nat := 3

/-- The retry loop of `extractContentWithHttp`.  `res attempt` is the
outcome of the `attempt`-th fetch (a page, or a thrown error).  Returns
the tier result, the list of backoff sleeps performed (milliseconds), and
the number of fetch attempts made. -/
def httpGo (res : Nat → Except String Page) (cssSelector : Option String) :
    Nat → Nat → Except String String × List Nat × Nat
  | 0, _ => (.error "Maximum retries exceeded", [], 0)
  | fuel + 1, attempt =>
      match res attempt with
      | .ok page => (.ok (cleanContent (selectContent page cssSelector)), [], 1)
      | .error e =>
          if attempt == maxRetries then (.error e, [], 1)
          else
            let d := baseDelay * 2 ^ (attempt - 1)
            let r := httpGo res cssSelector fuel (attempt + 1)
            (r.1, d :: r.2.1, r.2.2 + 1)

/-- `extractContentWithHttp`: run the attempt loop from attempt 1. -/
def extractContentWithHttp (res : Nat → Except String Page)
    (cssSelector : Option String) : Except String String × List Nat × Nat :=
  httpGo res cssSelector maxRetries 1

/-! ## Worker orchestration (src/worker.ts, `processJob`)

One `processJob` call is modelled against an environment fixing the
outcome of each awaited collaborator; the body threads those outcomes with
`Except` and the top-level `catch` converts any error into a `dropped`
outcome. -/

/-- Provenance of the content a job resolved to (`contentSource`). -/
inductive ContentSource where
  | webScraped
  | rssContent
  | rssDescription
  | rssContentShort
deriving DecidableEq

/-- The RSS fallback chain of `processJob` (worker.ts lines 47–84):
`meta.content` when non-empty of length ≥ 100, else `meta.description`
when non-empty of length ≥ 50, else any non-empty `meta.content`, else
nothing. -/
def rssFallback (job : QueueJob) : Option (String × ContentSource) :=
  let rssContent := (job.meta.bind JobMeta.content).getD ""
  let rssDescription := (job.meta.bind JobMeta.description).getD ""
  if rssContent ≠ "" ∧ 100 ≤ rssContent.length then
    some (rssContent, .rssContent)
  else if rssDescription ≠ "" ∧ 50 ≤ rssDescription.length then
    some (rssDescription, .rssDescription)
  else if rssContent ≠ "" then
    some (rssContent, .rssContentShort)
  else
    none

/-- Content resolution of `processJob`: the extracted content when the
extraction returned non-empty text; the RSS fallback chain when the
extraction threw or returned empty (`if (!content) throw`). -/
def resolveContent (job : QueueJob) (extractResult : Except String String) :
    Option (String × ContentSource) :=
  match extractResult with
  | .ok c => if c = "" then rssFallback job else some (c, .webScraped)
  | .error _ => rssFallback job

/-- Outcomes of the awaited collaborators during one `processJob` call. -/
structure JobEnv where
  popResult : Except String (Option QueueJob)
  processedCheck : Except String Bool
  extractResult : Except String String
  aiResult : Except String (String × List String)
  insertResult : Except String Unit
  notifyResult : Except String Unit
  markResult : Except String Unit

/-- Terminal outcome of one `processJob` call. -/
inductive JobOutcome where
  | noJob
  | alreadyProcessed
  | noContent
  | tooShort (length : Nat)
  | success (source : ContentSource) (content summary : String)
      (keywords : List String)
  | dropped (err : String)
deriving DecidableEq

/-- The body of `processJob` (everything inside the top-level `try`):
pop, dedup re-check, content resolution, minimum-length gate, AI call,
insert, notification, mark-sent.  Any stage error propagates out. -/
def processJobBody (env : JobEnv) : Except String JobOutcome := do
  let job? ← env.popResult
  match job? with
  | none => pure .noJob
  | some job =>
      let processed ← env.processedCheck
      if processed then pure .alreadyProcessed
      else
        match resolveContent job env.extractResult with
        | none => pure .noContent
        | some (content, src) =>
            if content = "" ∨ (jsTrim content).length < 20 then
              pure (.tooShort content.length)
            else do
              let ai ← env.aiResult
              let _ ← env.insertResult
              let _ ← env.notifyResult
              let _ ← env.markResult
              pure (.success src content ai.1 ai.2)

/-- `processJob` with its top-level `catch`: a stage error is logged and
the item dropped; no error escapes. -/
def processJob (env : JobEnv) : JobOutcome :=
  match processJobBody env with
  | .ok o => o
  | .error e => .dropped e

/-- The worker poll loop (`start()` in worker.ts): one `processJob` per
iteration, one iteration per scheduled environment. -/
def workerLoop (envs : List JobEnv) : List JobOutcome :=
  envs.map processJob

/-! ## Chrome scraper attempt (services/chrome-scraper.ts)

One iteration of `ChromeScraper.extractContent`'s retry loop: create a
tab, connect the WebSocket, enable domains, navigate, wait (never fails),
extract, check the length — with a `finally` that closes the WebSocket
(errors ignored) and the tab (`closeTab` swallows its own errors, and the
call site catches and logs besides). -/

/-- Externally visible resource events of one Chrome attempt.  The `ok`
flags record whether the cleanup call itself succeeded. -/
inductive ChromeEvent where
  | tabCreated (id : String)
  | wsConnected
  | wsCloseCalled (ok : Bool)
  | tabCloseCalled (id : String) (ok : Bool)
deriving DecidableEq

/-- Outcomes of the collaborators during one Chrome attempt. -/
structure ChromeEnv where
  createTab : Except String String
  connect : Except String Unit
  enableRuntime : Except String Unit
  enablePage : Except String Unit
  enableDom : Except String Unit
  navigate : Except String Unit
  extractRes : Except String String
  wsCloseOk : Bool
  tabCloseOk : Bool

/-- The protocol part of one attempt (after tab creation and WebSocket
connection): enable the three domains, navigate, wait for load (resolves
even on timeout), settle, extract, and reject content shorter than 20
characters. -/
def chromeAttemptBody (env : ChromeEnv) : Except String String := do
  let _ ← env.enableRuntime
  let _ ← env.enablePage
  let _ ← env.enableDom
  let _ ← env.navigate
  let content ← env.extractRes
  if content = "" ∨ (jsTrim content).length < 20 then
    .error ("Content too short or empty (" ++ toString content.length ++ " chars)")
  else
    pure content

/-- The `finally` block of one attempt: `ws.close()` when the WebSocket
was opened (its error ignored), then `closeTab` (its error swallowed and
logged).  The events record the calls and whether each succeeded. -/
def chromeCleanup (env : ChromeEnv) (tabId : String) (wsOpened : Bool) :
    List ChromeEvent :=
  (if wsOpened then [.wsCloseCalled env.wsCloseOk] else []) ++
    [.tabCloseCalled tabId env.tabCloseOk]

/-- One full attempt of `ChromeScraper.extractContent`: the result
returned (or error thrown) to the retry loop, and the resource events. -/
def chromeAttempt (env : ChromeEnv) : Except String String × List ChromeEvent :=
  match env.createTab with
  | .error e => (.error e, [])
  | .ok tabId =>
      match env.connect with
      | .error e => (.error e, .tabCreated tabId :: chromeCleanup env tabId false)
      | .ok _ =>
          (chromeAttemptBody env,
           .tabCreated tabId :: .wsConnected :: chromeCleanup env tabId true)

/-- Number of `closeTab` calls issued for tab `id` in a trace. -/
def countTabClose (tr : List ChromeEvent) (id : String) : Nat :=
  (tr.filter (fun ev =>
    match ev with
    | .tabCloseCalled i _ => i == id
    | _ => false)).length

/-- Number of WebSocket close calls issued in a trace. -/
def countWsClose (tr : List ChromeEvent) : Nat :=
  (tr.filter (fun ev =>
    match ev with
    | .wsCloseCalled _ => true
    | _ => false)).length

/-! ## AI response parsing (services/ai.ts, `summarizeAndExtract`)

The parsing chain turns the raw model text into a summary and keywords
through four fallback methods and a final quote-strip cleanup.  The two
regexes `/SUMMARY:\s*(.+?)(?=KEYWORDS:|$)/s` and `/KEYWORDS:\s*(.+?)$/s`
are modelled with the engine's exploration order: the match starts at the
leftmost position where the literal marker matches, the greedy `\s*`
backtracks from the longest whitespace run, and the lazy `(.+?)` grows
from one character until the lookahead holds. -/

/-- The literal `KEYWORDS:` marker. -/
def kwMarker : List Char := "KEYWORDS:".toList

/-- Lookahead `(?=KEYWORDS:|$)` of the summary regex, tested at offset `p`
of the text following the `SUMMARY:` marker. -/
def sumStop (rest : List Char) (p : Nat) : Bool :=
  p == rest.length || kwMarker.isPrefixOf (rest.drop p)

/-- Lookahead `$` of the keywords regex (end of input; the regex has no
`m` flag). -/
def kwStop (rest : List Char) (p : Nat) : Bool :=
  p == rest.length

/-- Match `\s*(.+?)(?=stop)` against `rest`: `\s*` consumes `j`
whitespace characters (greedy, so the largest `j` is tried first) and the
lazy capture takes the smallest `k ≥ 1` characters after which the
lookahead holds. -/
def captureAfter (stop : List Char → Nat → Bool) (rest : List Char) :
    Option (List Char) :=
  let w := (rest.takeWhile isJsWs).length
  ((List.range (w + 1)).reverse).findSome? (fun j =>
    ((List.range' 1 (rest.length - j)).find? (fun k => stop rest (j + k))).map
      (fun k => (rest.drop j).take k))

/-- Scan left to right for the first start position where the whole
pattern `marker\s*(.+?)(?=stop)` matches, and return its capture. -/
def scanMatch (marker : List Char) (stop : List Char → Nat → Bool) :
    List Char → Option (List Char)
  | [] => none
  | c :: rest =>
      if marker.isPrefixOf (c :: rest) then
        match captureAfter stop ((c :: rest).drop marker.length) with
        | some cap => some cap
        | none => scanMatch marker stop rest
      else
        scanMatch marker stop rest

/-- Capture of `rawResult.match(/SUMMARY:\s*(.+?)(?=KEYWORDS:|$)/s)`. -/
def summaryMatchCap (raw : List Char) : Option (List Char) :=
  scanMatch "SUMMARY:".toList sumStop raw

/-- Capture of `rawResult.match(/KEYWORDS:\s*(.+?)$/s)`. -/
def keywordsMatchCap (raw : List Char) : Option (List Char) :=
  scanMatch "KEYWORDS:".toList kwStop raw

/-- Method 1 for the summary: the regex capture, trimmed, newlines
replaced by spaces; empty when the regex did not match (a successful
capture is at least one character, hence truthy). -/
def method1Summary (raw : List Char) : List Char :=
  match summaryMatchCap raw with
  | some cap => (trimChars cap).map (fun c => if c == '\n' then ' ' else c)
  | none => []

/-- Method 1 for the keywords: split the capture on commas, trim, keep
the non-empty tokens. -/
def method1Keywords (raw : List Char) : List (List Char) :=
  match keywordsMatchCap raw with
  | some cap => ((cap.splitOn ',').map trimChars).filter (fun k => !(k.isEmpty))
  | none => []

/-- The lowercase Vietnamese letters of the fallback character class. -/
def viLower : List Char :=
  "àáạảãâầấậẩẫăằắặẳẵèéẹẻẽêềếệểễìíịỉĩòóọỏõôồốộổỗơờớợởỡùúụủũưừứựửữỳýỵỷỹđ".toList

/-- Their uppercase forms, matched through the regex's `i` flag. -/
def viUpper : List Char :=
  "ÀÁẠẢÃÂẦẤẬẨẪĂẰẮẶẲẴÈÉẸẺẼÊỀẾỆỂỄÌÍỊỈĨÒÓỌỎÕÔỒỐỘỔỖƠỜỚỢỞỠÙÚỤỦŨƯỪỨỰỬỮỲÝỴỶỸĐ".toList

/-- Test of the case-insensitive Vietnamese character class. -/
def hasViChar (line : List Char) : Bool :=
  line.any (fun c => viLower.contains c || viUpper.contains c)

/-- The line list of method 2: split on newlines, trim each line, drop
the empty ones. -/
def rawLines (raw : List Char) : List (List Char) :=
  ((raw.splitOn '\n').map trimChars).filter (fun l => !(l.isEmpty))

/-- Method 2 for the summary: the first trimmed non-empty line containing
a Vietnamese character and longer than 30 characters. -/
def method2Summary (lines : List (List Char)) : Option (List Char) :=
  lines.find? (fun line => hasViChar line && 30 < line.length)

/-- Method 3 for the summary: the synthetic templated Vietnamese sentence
embedding the title; it can never be empty. -/
def syntheticSummary (title : List Char) : List Char :=
  "Bài báo \"".toList ++ title ++
    "\" đề cập đến các vấn đề quan trọng và cung cấp thông tin hữu ích cho người đọc.".toList

/-- The summary fallback chain before the final cleanup: method 1, then
method 2 when the summary is empty or shorter than 20 characters, then
method 3 when it is still empty or shorter than 10. -/
def summaryChain (raw title : List Char) : List Char :=
  let s1 := method1Summary raw
  let s2 :=
    if s1.isEmpty || s1.length < 20 then
      match method2Summary (rawLines raw) with
      | some line => line
      | none => s1
    else s1
  if s2.isEmpty || s2.length < 10 then syntheticSummary title else s2

/-- The comma-separated candidate keywords of one line: split on commas,
trim, keep tokens of length 2 to 29. -/
def possibleKeywords (line : List Char) : List (List Char) :=
  ((line.splitOn ',').map trimChars).filter
    (fun k => !(k.isEmpty) && 1 < k.length && k.length < 30)

/-- The comma-line fallback for keywords: the first raw (untrimmed) line
containing a comma whose candidate tokens number at least 2, cut to the
first 5. -/
def commaKeywords (raw : List Char) : Option (List (List Char)) :=
  ((raw.splitOn '\n').filter (fun line => line.contains ',')).findSome?
    (fun line =>
      let pk := possibleKeywords line
      if 2 ≤ pk.length then some (pk.take 5) else none)

/-- The title-word fallback for keywords: words of the title longer than
3 characters, first 5. -/
def titleKeywords (title : List Char) : List (List Char) :=
  ((title.splitOn ' ').filter (fun w => 3 < w.length)).take 5

/-- The terminal fixed keyword fallback. -/
def fixedKeywords : List (List Char) :=
  ["Tin tức".toList, "Thông tin".toList, "Báo chí".toList]

/-- The keyword fallback chain before the final cleanup: method 1, then
the comma-line scan when empty, then title words, then the fixed set. -/
def keywordsChain (raw title : List Char) : List (List Char) :=
  let k1 := method1Keywords raw
  let k2 :=
    if k1.length == 0 then
      match commaKeywords raw with
      | some ks => ks
      | none => k1
    else k1
  if k2.length == 0 then
    let tw := titleKeywords title
    if tw.length == 0 then fixedKeywords else tw
  else k2

/-- Quote characters stripped by the final cleanup regex. -/
def isQuote (c : Char) : Bool :=
  c == '"' || c == Char.ofNat 39

/-- The cleanup substitution `.replace(/^["<apostrophe>]|["<apostrophe>]$/g, '')`:
remove one leading quote, then one trailing quote of what remains. -/
def stripQuotes (l : List Char) : List Char :=
  let l1 :=
    match l with
    | [] => []
    | c :: rest => if isQuote c then rest else c :: rest
  match l1.getLast? with
  | some c => if isQuote c then l1.dropLast else l1
  | none => l1

/-- The parsed model response (`AIResponse` of services/ai.ts). -/
structure AIResponse where
  summary : List Char
  keywords : List (List Char)
deriving DecidableEq

/-- The whole parsing chain of `summarizeAndExtract` applied to the raw
model text: fallback chains plus the final quote-strip-and-trim cleanup. -/
def parseAIResponse (raw title : List Char) : AIResponse :=
  { summary := trimChars (stripQuotes (summaryChain raw title)),
    keywords := (keywordsChain raw title).map (fun k => trimChars (stripQuotes k)) }

/-- The `catch` fallback of `summarizeAndExtract`: a fixed Vietnamese
apology summary embedding the title, plus the fixed keywords. -/
def aiErrorFallback (title : List Char) : AIResponse :=
  { summary := "Tóm tắt bài báo \"".toList ++ title ++
      "\" không khả dụng do lỗi xử lý.".toList,
    keywords := fixedKeywords }

/-- `summarizeAndExtract` given the outcome of the model call: parse the
raw text (an absent completion reads as the empty string upstream), or
return the catch fallback when the call threw. -/
def summarizeAndExtract (modelResult : Except String (List Char))
    (title : List Char) : AIResponse :=
  match modelResult with
  | .ok raw => parseAIResponse raw title
  | .error _ => aiErrorFallback title

/-! ## Helper lemmas -/

/-- Serialization round-trip for the `meta` sub-object. -/
theorem decodeMeta_encodeMeta (m : JobMeta) : decodeMeta (encodeMeta m) = some m := by
  obtain ⟨t, p, c, d⟩ := m
  cases t <;> cases p <;> cases c <;> cases d <;> rfl

/-- Serialization round-trip for a whole queue job. -/
theorem decodeJob_encodeJob (j : QueueJob) : decodeJob (encodeJob j) = some j := by
  obtain ⟨u, fn, c, s, meta⟩ := j
  match meta with
  | none => rfl
  | some m =>
      obtain ⟨mt, mp, mc, md⟩ := m
      cases mt <;> cases mp <;> cases mc <;> cases md <;> rfl

/-- A sequence of LPUSHes lays the serialized jobs out in reverse order
in front of the existing list. -/
theorem enqueueAll_eq (js : List QueueJob) (q : List Json) :
    enqueueAll js q = (js.map encodeJob).reverse ++ q := by
  induction js generalizing q with
  | nil => simp [enqueueAll]
  | cons j rest ih =>
      show enqueueAll rest (pushJob j q) = _
      rw [ih]
      simp [pushJob]

/-- RPOPping a freshly enqueued backlog returns the jobs in enqueue
order, decoded back to the originals, and drains the list. -/
theorem dequeueN_rev (js : List QueueJob) :
    dequeueN js.length ((js.map encodeJob).reverse) = (js.map some, []) := by
  induction js with
  | nil => simp [dequeueN]
  | cons j rest ih =>
      have hq : ((j :: rest).map encodeJob).reverse =
          (rest.map encodeJob).reverse ++ [encodeJob j] := by simp
      have hlen : (j :: rest).length = rest.length + 1 := rfl
      rw [hq, hlen]
      simp [dequeueN, popJob, List.getLast?_concat, List.dropLast_concat,
        decodeJob_encodeJob, ih]

/-- A zero row count for a url is the same as the duplicate check
coming back empty. -/
theorem dbHasUrl_eq_false_iff (db : List StoredArticle) (url : String) :
    dbHasUrl db url = false ↔ rowCount db url = 0 := by
  simp [dbHasUrl, rowCount, List.length_eq_zero, List.filter_eq_nil_iff,
    List.any_eq_false]

/-! ## Claim C8 — queue adapter FIFO round-trip -/

/-- C8: the queue adapter LPUSHes serialized jobs at one end of a single
list and RPOPs from the other, so for a single sequential client a run of
enqueues followed by dequeues returns the jobs in enqueue order, each
dequeued job equal to the enqueued one through the JSON round-trip; a
dequeue on the empty queue returns `null` immediately. -/
theorem queue_fifo_roundtrip (js : List QueueJob) :
    dequeueN js.length (enqueueAll js []) = (js.map some, []) ∧
    popJob [] = (none, []) ∧
    ∀ j : QueueJob, decodeJob (encodeJob j) = some j := by
  refine ⟨?_, rfl, decodeJob_encodeJob⟩
  rw [enqueueAll_eq]
  simpa using dequeueN_rev js

/-- Concrete queue job used by the C8 witness. -/
def jW1 : QueueJob :=
  { url := "https://x.test/a", feedName := "feed", category := "news",
    css_selector := ".body",
    meta := some { title := some "T1", published := none,
                   content := some "cc", description := none } }

/-- Second concrete queue job used by the C8 witness. -/
def jW2 : QueueJob :=
  { url := "https://x.test/b", feedName := "feed", category := "news",
    css_selector := "", meta := none }

/-- Witness for C8 at a two-job backlog. -/
theorem queue_fifo_roundtrip_witness :
    dequeueN 2 (enqueueAll [jW1, jW2] []) = ([some jW1, some jW2], []) ∧
    popJob [] = (none, []) := by
  have h := queue_fifo_roundtrip [jW1, jW2]
  exact ⟨h.1, h.2.1⟩

/-! ## Claim C2 — idempotent article insert -/

/-- C2: inserting the same article twice leaves exactly one stored row:
when the first call succeeds on a table without that url, the second call
finds the existing row and returns without inserting and without
an error. -/
theorem insertArticle_idempotent (a : Article) (db0 db1 : List StoredArticle)
    (i : Bool)
    (hnew : rowCount db0 (truncArticle a).article_url = 0)
    (h1 : insertArticle a db0 = .ok (i, db1)) :
    i = true ∧ rowCount db1 (truncArticle a).article_url = 1 ∧
    insertArticle a db1 = .ok (false, db1) := by
  have hhas : dbHasUrl db0 (truncArticle a).article_url = false :=
    (dbHasUrl_eq_false_iff _ _).mpr hnew
  cases hv : validArticle a with
  | false => simp [insertArticle, hv] at h1
  | true =>
      simp only [insertArticle, hv, Bool.not_true, Bool.false_eq_true,
        if_false, hhas, Except.ok.injEq, Prod.mk.injEq] at h1 ⊢
      obtain ⟨hi, hdb⟩ := h1
      subst hdb
      refine ⟨hi.symm, ?_, ?_⟩
      · have h0 : (db0.filter
            (fun r => r.article_url == (truncArticle a).article_url)).length = 0 := hnew
        simp [rowCount, List.filter_append, h0]
      · have : dbHasUrl (db0 ++ [truncArticle a]) (truncArticle a).article_url = true := by
          simp [dbHasUrl]
        simp [this]

/-- Concrete article used by the C2 witness. -/
def aW : Article :=
  { article_url := "https://x.test/a", feed_name := "feed", category := "news",
    title := "Title", content := "body", summary := "sum", keywords := "k1, k2",
    published_at := 1, processed_at := 2, notification_sent := false }

/-- Witness for C2: inserting `aW` twice into an empty table stores one
row and the second call is a skip, not an error. -/
theorem insertArticle_idempotent_witness :
    rowCount [] (truncArticle aW).article_url = 0 ∧
    (true = true ∧ rowCount [truncArticle aW] (truncArticle aW).article_url = 1 ∧
     insertArticle aW [truncArticle aW] = .ok (false, [truncArticle aW])) :=
  ⟨rfl, insertArticle_idempotent aW [] [truncArticle aW] true rfl rfl⟩

/-! ## Claim C10 — column truncation before dedup and insert -/

/-- C10: `insertArticle` truncates `article_url` to 1000 characters,
`feed_name` and `category` to 100 and `title` to 500 before both the
duplicate check and the insert, so two distinct urls agreeing on their
first 1000 characters are the same article identity and the second
insert is skipped as a duplicate. -/
theorem insertArticle_truncates (a1 a2 : Article) (db1 : List StoredArticle)
    (hv2 : validArticle a2 = true)
    (_hne : a1.article_url ≠ a2.article_url)
    (hurl : jsSubstring a1.article_url 1000 = jsSubstring a2.article_url 1000)
    (h1 : insertArticle a1 [] = .ok (true, db1)) :
    db1 = [truncArticle a1] ∧
    (truncArticle a1).article_url = jsSubstring a1.article_url 1000 ∧
    (truncArticle a1).feed_name = jsSubstring a1.feed_name 100 ∧
    (truncArticle a1).category = jsSubstring a1.category 100 ∧
    (truncArticle a1).title = jsSubstring a1.title 500 ∧
    insertArticle a2 db1 = .ok (false, db1) := by
  cases hv1 : validArticle a1 with
  | false => simp [insertArticle, hv1] at h1
  | true =>
      have hdb : db1 = [truncArticle a1] := by
        simp [insertArticle, hv1, dbHasUrl] at h1
        exact h1.symm
      subst hdb
      refine ⟨rfl, rfl, rfl, rfl, rfl, ?_⟩
      have hkeyEq : (truncArticle a1).article_url = (truncArticle a2).article_url := by
        simpa [truncArticle] using hurl
      simp [insertArticle, hv2, dbHasUrl, ← hkeyEq]

/-- A 1001-character url: 1000 copies of `a` then `b`. -/
def urlA : String := ⟨List.replicate 1000 'a' ++ ['b']⟩

/-- A second 1001-character url agreeing with `urlA` on its first 1000
characters but distinct from it. -/
def urlB : String := ⟨List.replicate 1000 'a' ++ ['c']⟩

/-- First article of the C10 witness. -/
def aW1 : Article :=
  { article_url := urlA, feed_name := "feed", category := "news",
    title := "Title1", content := "body1", summary := "sum1", keywords := "k",
    published_at := 1, processed_at := 2, notification_sent := false }

/-- Second article of the C10 witness, with the clashing url. -/
def aW2 : Article :=
  { article_url := urlB, feed_name := "feed", category := "news",
    title := "Title2", content := "body2", summary := "sum2", keywords := "k",
    published_at := 3, processed_at := 4, notification_sent := true }

/-- The two witness urls agree on their first 1000 characters. -/
theorem urlA_urlB_trunc_eq : jsSubstring urlA 1000 = jsSubstring urlB 1000 := by
  have h1 : (List.replicate 1000 'a' ++ ['b']).take 1000 = List.replicate 1000 'a' :=
    List.take_left' (List.length_replicate 1000 'a')
  have h2 : (List.replicate 1000 'a' ++ ['c']).take 1000 = List.replicate 1000 'a' :=
    List.take_left' (List.length_replicate 1000 'a')
  show (⟨(List.replicate 1000 'a' ++ ['b']).take 1000⟩ : String) =
    ⟨(List.replicate 1000 'a' ++ ['c']).take 1000⟩
  rw [h1, h2]

/-- Witness for C10: the two 1001-character urls are distinct, agree on
their first 1000 characters, and the second insert is skipped. -/
theorem insertArticle_truncates_witness :
    validArticle aW2 = true ∧ aW1.article_url ≠ aW2.article_url ∧
    ([truncArticle aW1] = [truncArticle aW1] ∧
     (truncArticle aW1).article_url = jsSubstring aW1.article_url 1000 ∧
     (truncArticle aW1).feed_name = jsSubstring aW1.feed_name 100 ∧
     (truncArticle aW1).category = jsSubstring aW1.category 100 ∧
     (truncArticle aW1).title = jsSubstring aW1.title 500 ∧
     insertArticle aW2 [truncArticle aW1] = .ok (false, [truncArticle aW1])) :=
  ⟨rfl, by decide,
   insertArticle_truncates aW1 aW2 [truncArticle aW1] rfl (by decide)
     urlA_urlB_trunc_eq rfl⟩

/-! ## Claim C5 — HTTP tier retry and backoff -/

/-- The HTTP retry loop performs at most `fuel` fetch attempts. -/
theorem httpGo_count_le (res : Nat → Except String Page) (sel : Option String) :
    ∀ fuel attempt, (httpGo res sel fuel attempt).2.2 ≤ fuel := by
  intro fuel
  induction fuel with
  | zero => intro attempt; simp [httpGo]
  | succ n ih =>
      intro attempt
      cases hres : res attempt with
      | ok page => simp [httpGo, hres]
      | error e =>
          simp only [httpGo, hres]
          split
          · simp
          · simpa using Nat.succ_le_succ (ih (attempt + 1))

/-- C5: the HTTP extraction tier makes at most 3 fetch attempts; after
the first failure it sleeps 2000 ms and after the second 4000 ms, no
sleep follows the third failure, and the third attempt's error is the
tier failure returned to the caller. -/
theorem http_backoff (res : Nat → Except String Page) (sel : Option String)
    (e1 e2 e3 : String)
    (h1 : res 1 = .error e1) (h2 : res 2 = .error e2) (h3 : res 3 = .error e3) :
    extractContentWithHttp res sel = (.error e3, [2000, 4000], 3) ∧
    ∀ (res2 : Nat → Except String Page) (sel2 : Option String),
      (extractContentWithHttp res2 sel2).2.2 ≤ 3 := by
  constructor
  · simp [extractContentWithHttp, maxRetries, httpGo, h1, h2, h3, baseDelay]
  · intro res2 sel2
    exact httpGo_count_le res2 sel2 3 1

/-- A fetch that always throws, used by the C5 witness. -/
def resW : Nat → Except String Page := fun _ => .error "connect ECONNREFUSED"

/-- Witness for C5: three failing attempts sleep 2000 ms then 4000 ms and
surface the final error. -/
theorem http_backoff_witness :
    extractContentWithHttp resW none =
      (.error "connect ECONNREFUSED", [2000, 4000], 3) :=
  (http_backoff resW none "connect ECONNREFUSED" "connect ECONNREFUSED"
    "connect ECONNREFUSED" rfl rfl rfl).1

/-! ## Claim C6 — default-selector probing -/

/-- A page whose `article` element exists but has empty text while `main`
holds the body. -/
def pageC6 : Page := fun s =>
  if s == "article" then some ""
  else if s == "main" then some "A sufficiently long article body text"
  else none

/-- Counterexample to C6: the probe takes the first selector with a
matching element even when its text is empty — here `article` matches
with empty text, so the selection is empty although `main` holds
non-empty text, while the claim requires the first non-empty match to be
taken. -/
theorem selector_probe_counterexample :
    pageC6 "article" = some "" ∧
    pageC6 "main" = some "A sufficiently long article body text" ∧
    "A sufficiently long article body text" ≠ "" ∧
    selectContent pageC6 none = "" := by
  exact ⟨rfl, rfl, by decide, rfl⟩

/-- C6 amended: with no caller-supplied selector the engine probes the
ordered default list and takes the text of the first selector that
matches at least one element — even when that text is empty; selectors
matching no element are skipped, and when none matches the content is
empty. -/
theorem selector_probe_amended (page : Page) (ss1 ss2 : List String)
    (s t : String)
    (hnone : ∀ x ∈ ss1, page x = none) (hs : page s = some t) :
    probeLoop page (ss1 ++ s :: ss2) = t ∧
    selectContent page none = probeLoop page defaultSelectors ∧
    (∀ page2 : Page, (∀ x ∈ defaultSelectors, page2 x = none) →
      selectContent page2 none = "") := by
  refine ⟨?_, rfl, ?_⟩
  · induction ss1 with
    | nil => simp [probeLoop, hs]
    | cons a rest ih =>
        have ha : page a = none := hnone a (by simp)
        simp only [List.cons_append, probeLoop, ha]
        exact ih (fun x hx => hnone x (by simp [hx]))
  · intro page2 h2
    have hgen : ∀ l : List String, (∀ x ∈ l, page2 x = none) →
        probeLoop page2 l = "" := by
      intro l
      induction l with
      | nil => intro _; rfl
      | cons a rest ih =>
          intro h
          simp only [probeLoop, h a (by simp)]
          exact ih (fun x hx => h x (by simp [hx]))
    exact hgen defaultSelectors h2

/-- A page matching only `.post-content`, used by the C6 witness. -/
def pageC6W : Page := fun s =>
  if s == ".post-content" then some "witness body" else none

/-- Witness for C6 amended: with `article` and `.article-content`
matching nothing, the probe of the default list returns the
`.post-content` text. -/
theorem selector_probe_amended_witness :
    probeLoop pageC6W (["article", ".article-content"] ++ ".post-content" ::
      [".entry-content", ".articlebody", ".story-body", ".content", "main"]) =
      "witness body" :=
  (selector_probe_amended pageC6W ["article", ".article-content"]
    [".entry-content", ".articlebody", ".story-body", ".content", "main"]
    ".post-content" "witness body" (by decide) rfl).1

/-! ## Claim C9 — top-level catch keeps the worker loop alive -/

/-- A 120-character feed-supplied content string, used against C9. -/
def rssW9 : String := ⟨List.replicate 120 'n'⟩

/-- Job with usable RSS fallback content, used against C9. -/
def jobC9 : QueueJob :=
  { url := "https://x.test/c9", feedName := "f", category := "c",
    css_selector := "",
    meta := some { title := some "T9", published := none,
                   content := some rssW9, description := none } }

/-- Environment in which the extraction stage throws while the job
carries usable feed content and every later stage succeeds. -/
def envC9 : JobEnv :=
  { popResult := .ok (some jobC9), processedCheck := .ok false,
    extractResult := .error "scrape blew up",
    aiResult := .ok ("sum", ["kw"]),
    insertResult := .ok (), notifyResult := .ok (), markResult := .ok () }

/-- Counterexample to C9: an exception thrown at the extraction stage is
not caught at the top level of the per-job handler and the item is not
dropped — the inner fallback handler absorbs it and, the feed content
being usable, the item proceeds to a successful outcome. -/
theorem worker_catch_counterexample :
    envC9.extractResult = .error "scrape blew up" ∧
    processJob envC9 = .success .rssContent rssW9 "sum" ["kw"] ∧
    ∀ e, processJob envC9 ≠ .dropped e := by
  refine ⟨rfl, rfl, ?_⟩
  intro e h
  rw [show processJob envC9 = .success .rssContent rssW9 "sum" ["kw"] from rfl] at h
  exact JobOutcome.noConfusion h

/-- C9 amended: an exception thrown at the dedup re-check, AI call,
insert, notification or mark-sent stage — any error that reaches the
per-job body — is caught at the top level, the item is dropped and the
loop continues with the next iteration; an extraction exception however
is caught by the inner fallback handler, after which the item proceeds
with feed-supplied content when usable and is otherwise skipped; in every
case no error escapes the handler and the loop keeps running. -/
theorem worker_catch_amended (env : JobEnv) (envs : List JobEnv) (e : String) :
    (processJobBody env = .error e →
      processJob env = .dropped e ∧
      workerLoop (env :: envs) = JobOutcome.dropped e :: workerLoop envs) ∧
    (∀ job, env.popResult = .ok (some job) → env.processedCheck = .ok false →
      env.extractResult = .error e →
      (rssFallback job = none → processJob env = .noContent) ∧
      (∀ content src s ks, rssFallback job = some (content, src) →
        content ≠ "" → ¬((jsTrim content).length < 20) →
        env.aiResult = .ok (s, ks) → env.insertResult = .ok () →
        env.notifyResult = .ok () → env.markResult = .ok () →
        processJob env = .success src content s ks)) ∧
    (workerLoop (env :: envs)).length = envs.length + 1 := by
  refine ⟨?_, ?_, by simp [workerLoop]⟩
  · intro h
    have hp : processJob env = .dropped e := by simp [processJob, h]
    exact ⟨hp, by simp [workerLoop, hp]⟩
  · intro job hpop hproc hext
    have hres : resolveContent job env.extractResult = rssFallback job := by
      rw [hext]
      rfl
    constructor
    · intro hnone
      simp [processJob, processJobBody, hpop, hproc, hres, hnone,
        bind, Except.bind, pure, Except.pure]
    · intro content src s ks hsome hne hlen hai hins hnot hmark
      simp [processJob, processJobBody, hpop, hproc, hres, hsome, hne, hlen,
        hai, hins, hnot, hmark, bind, Except.bind, pure, Except.pure,
        Functor.map, Except.map]

/-- Job of the C9 witness. -/
def jobW9 : QueueJob :=
  { url := "https://x.test/a", feedName := "f", category := "c",
    css_selector := "", meta := none }

/-- Environment of the C9 witness in which every stage succeeds except
the database insert, which throws. -/
def envW9 : JobEnv :=
  { popResult := .ok (some jobW9), processedCheck := .ok false,
    extractResult := .ok "This content is definitely long enough to pass the gate",
    aiResult := .ok ("summary", ["kw"]),
    insertResult := .error "db exploded",
    notifyResult := .ok (), markResult := .ok () }

/-- Second environment of the C9 witness: the extraction stage throws
while the feed fallback is usable. -/
def envC9W : JobEnv :=
  { popResult := .ok (some jobC9), processedCheck := .ok false,
    extractResult := .error "scrape failed",
    aiResult := .ok ("sumW", ["kwW"]),
    insertResult := .ok (), notifyResult := .ok (), markResult := .ok () }

/-- Witness for C9 amended: the insert failure is dropped at the top
level while the loop still runs, and an extraction failure with usable
feed content proceeds to success instead. -/
theorem worker_catch_amended_witness :
    processJob envW9 = .dropped "db exploded" ∧
    workerLoop [envW9] = [JobOutcome.dropped "db exploded"] ∧
    processJob envC9W = .success .rssContent rssW9 "sumW" ["kwW"] := by
  have h1 := (worker_catch_amended envW9 [] "db exploded").1 rfl
  have h2 := ((worker_catch_amended envC9W [] "scrape failed").2.1 jobC9
    rfl rfl rfl).2 rssW9 .rssContent "sumW" ["kwW"] (by decide) (by decide)
    (by decide) rfl rfl rfl rfl
  exact ⟨h1.1, h1.2, h2⟩

/-! ## Claim C1 — fallback trigger and minimum viable length -/

/-- A 150-character feed-supplied content string. -/
def contentW150 : String := ⟨List.replicate 150 'v'⟩

/-- Job with rich RSS fallback content, used against C1. -/
def jobC1W : QueueJob :=
  { url := "https://x.test/a", feedName := "f", category := "c",
    css_selector := "",
    meta := some { title := some "T", published := none,
                   content := some contentW150, description := none } }

/-- Environment in which the primary tier returns a short non-empty
text while the job carries a 150-character feed fallback. -/
def envC1 : JobEnv :=
  { popResult := .ok (some jobC1W), processedCheck := .ok false,
    extractResult := .ok "short text",
    aiResult := .ok ("s", ["k"]),
    insertResult := .ok (), notifyResult := .ok (), markResult := .ok () }

/-- Counterexample to C1: the primary tier yields non-empty text of
trimmed length 10 (< 20) and `fallbackContent` of length 150 is
available, yet the engine keeps the primary text (no fallback happens)
and then drops the item at the minimum-length gate. -/
theorem worker_fallback_counterexample :
    (jsTrim "short text").length = 10 ∧ ("short text" : String) ≠ "" ∧
    ((jobC1W.meta.bind JobMeta.content).getD "").length = 150 ∧
    resolveContent jobC1W envC1.extractResult =
      some ("short text", .webScraped) ∧
    processJob envC1 = .tooShort 10 := by
  refine ⟨by decide, by decide, by decide, rfl, rfl⟩

/-- C1 amended: the engine falls back to feed-supplied content only when
the primary tier throws or yields empty text — a non-empty primary
result is kept even when shorter than 20 characters; the fallback
priority is `fallbackContent` (non-empty, ≥ 100) then
`fallbackDescription` (non-empty, ≥ 50) then any non-empty
`fallbackContent`; whatever content is selected is then dropped when its
trimmed length is below 20 and processed when at least 20. -/
theorem worker_fallback_amended (job : QueueJob) (env : JobEnv) (c e : String) :
    (resolveContent job (.error e) = rssFallback job) ∧
    (resolveContent job (.ok "") = rssFallback job) ∧
    (c ≠ "" → resolveContent job (.ok c) = some (c, .webScraped)) ∧
    (let rssC := (job.meta.bind JobMeta.content).getD ""
     let rssD := (job.meta.bind JobMeta.description).getD ""
     (rssC ≠ "" → 100 ≤ rssC.length → rssFallback job = some (rssC, .rssContent)) ∧
     (¬(rssC ≠ "" ∧ 100 ≤ rssC.length) → rssD ≠ "" → 50 ≤ rssD.length →
       rssFallback job = some (rssD, .rssDescription)) ∧
     (¬(rssC ≠ "" ∧ 100 ≤ rssC.length) → ¬(rssD ≠ "" ∧ 50 ≤ rssD.length) →
       rssC ≠ "" → rssFallback job = some (rssC, .rssContentShort)) ∧
     (rssC = "" → ¬(rssD ≠ "" ∧ 50 ≤ rssD.length) → rssFallback job = none)) ∧
    (∀ content src,
      env.popResult = .ok (some job) → env.processedCheck = .ok false →
      resolveContent job env.extractResult = some (content, src) →
      ((content = "" ∨ (jsTrim content).length < 20) →
        processJob env = .tooShort content.length) ∧
      (content ≠ "" → ¬((jsTrim content).length < 20) →
        ∀ s ks, env.aiResult = .ok (s, ks) → env.insertResult = .ok () →
          env.notifyResult = .ok () → env.markResult = .ok () →
          processJob env = .success src content s ks)) := by
  refine ⟨rfl, by simp [resolveContent], ?_, ?_, ?_⟩
  · intro hc
    simp [resolveContent, hc]
  · refine ⟨?_, ?_, ?_, ?_⟩
    · intro h1 h2
      simp only [rssFallback]
      rw [if_pos ⟨h1, h2⟩]
    · intro hn h1 h2
      simp only [rssFallback]
      rw [if_neg hn, if_pos ⟨h1, h2⟩]
    · intro hn1 hn2 h
      simp only [rssFallback]
      rw [if_neg hn1, if_neg hn2, if_pos h]
    · intro h1 hn2
      simp only [rssFallback]
      rw [if_neg (by simp [h1]), if_neg hn2, if_neg (by simp [h1])]
  · intro content src hpop hproc hres
    constructor
    · intro hshort
      simp [processJob, processJobBody, hpop, hproc, hres, hshort,
        bind, Except.bind, pure, Except.pure]
    · intro hne hlen s ks hai hins hnot hmark
      simp [processJob, processJobBody, hpop, hproc, hres, hne, hlen,
        hai, hins, hnot, hmark, bind, Except.bind, pure, Except.pure,
        Functor.map, Except.map]

/-- A 19-character extracted text. -/
def c19 : String := "nineteen long chars"

/-- A 20-character extracted text. -/
def c20 : String := "twenty literal chars"

/-- Environment whose primary tier yields the 19-character text. -/
def envW19 : JobEnv :=
  { popResult := .ok (some jobC1W), processedCheck := .ok false,
    extractResult := .ok c19,
    aiResult := .ok ("sum", ["kw"]),
    insertResult := .ok (), notifyResult := .ok (), markResult := .ok () }

/-- Environment whose primary tier yields the 20-character text. -/
def envW20 : JobEnv :=
  { popResult := .ok (some jobC1W), processedCheck := .ok false,
    extractResult := .ok c20,
    aiResult := .ok ("sum", ["kw"]),
    insertResult := .ok (), notifyResult := .ok (), markResult := .ok () }

/-- Witness for C1 amended: a thrown primary extraction falls back to
the 150-character feed content; a 19-character primary result is dropped
as unusable while a 20-character one is accepted and processed. -/
theorem worker_fallback_amended_witness :
    resolveContent jobC1W (.error "fetch failed") =
      some (contentW150, .rssContent) ∧
    processJob envW19 = .tooShort 19 ∧
    processJob envW20 = .success .webScraped c20 "sum" ["kw"] := by
  have h19 := worker_fallback_amended jobC1W envW19 c19 "fetch failed"
  have h20 := worker_fallback_amended jobC1W envW20 c20 "x"
  refine ⟨?_, ?_, ?_⟩
  · have hfb := h19.2.2.2.1
    simp only at hfb
    exact h19.1.trans (hfb.1 (by decide) (by decide))
  · exact ((h19.2.2.2.2 c19 .webScraped rfl rfl (by decide)).1 (by decide))
  · exact ((h20.2.2.2.2 c20 .webScraped rfl rfl (by decide)).2 (by decide)
      (by decide) "sum" ["kw"] rfl rfl rfl rfl)

/-! ## Claims C3 and C7 — AI parser guarantees -/

/-- Positivity of the terminal keyword selection: whatever the earlier
methods produced, the final checks guarantee a non-empty list. -/
theorem ite_keywords_pos (k2 tw : List (List Char)) :
    1 ≤ (if (k2.length == 0) = true then
           (if (tw.length == 0) = true then fixedKeywords else tw)
         else k2).length := by
  by_cases h : (k2.length == 0) = true
  · rw [if_pos h]
    by_cases h2 : (tw.length == 0) = true
    · rw [if_pos h2]
      simp [fixedKeywords]
    · rw [if_neg h2]
      exact Nat.pos_of_ne_zero (by simpa using h2)
  · rw [if_neg h]
    exact Nat.pos_of_ne_zero (by simpa using h)

/-- Bound of the terminal keyword selection: when the incoming list and
the title words are within 5 entries, so is the selection. -/
theorem ite_keywords_le (k2 tw : List (List Char))
    (hk2 : k2.length ≤ 5) (htw : tw.length ≤ 5) :
    (if (k2.length == 0) = true then
       (if (tw.length == 0) = true then fixedKeywords else tw)
     else k2).length ≤ 5 := by
  by_cases h : (k2.length == 0) = true
  · rw [if_pos h]
    by_cases h2 : (tw.length == 0) = true
    · rw [if_pos h2]
      simp [fixedKeywords]
    · rw [if_neg h2]
      exact htw
  · rw [if_neg h]
    exact hk2

/-- The keyword chain always produces at least one entry: the terminal
checks fall back to title words or the fixed keyword set. -/
theorem keywordsChain_pos (raw title : List Char) :
    1 ≤ (keywordsChain raw title).length := by
  unfold keywordsChain
  exact ite_keywords_pos _ _

/-- The title-word fallback yields at most 5 keywords. -/
theorem titleKeywords_le (title : List Char) :
    (titleKeywords title).length ≤ 5 :=
  List.length_take_le _ _

/-- The final cleanup maps over the keywords, preserving their number. -/
theorem parse_keywords_length (raw title : List Char) :
    (parseAIResponse raw title).keywords.length = (keywordsChain raw title).length := by
  simp [parseAIResponse]

/-- The comma-line fallback returns at most 5 keywords (`slice(0, 5)`). -/
theorem commaKeywords_le (raw : List Char) (ks : List (List Char))
    (h : commaKeywords raw = some ks) : ks.length ≤ 5 := by
  obtain ⟨line, _, hline⟩ := List.exists_of_findSome?_eq_some h
  by_cases h2 : 2 ≤ (possibleKeywords line).length
  · simp only [h2, if_pos, Option.some.injEq] at hline
    rw [← hline]
    exact List.length_take_le _ _
  · simp [h2] at hline

/-- The adversarial raw response of the C3 counterexample: a quote, eight
spaces and a quote after the `SUMMARY:` tag. -/
def rawC3 : List Char := "SUMMARY: \"        \"".toList

/-- Counterexample to C3: on `rawC3` the tagged extraction captures the
10-character quote-wrapped whitespace run (long enough to skip the
synthetic fallback), and the final quote-strip-and-trim cleanup then
empties it — the parser returns an empty summary. -/
theorem parser_counterexample :
    (parseAIResponse rawC3 "T".toList).summary = [] ∧
    rawC3 ≠ [] ∧ 1 ≤ (parseAIResponse rawC3 "T".toList).keywords.length := by
  refine ⟨by decide, by decide, by decide⟩

/-- C3 amended: the parser is total (never throws) and always returns at
least one keyword — also when the model call itself failed — and for an
empty raw response and title `T` it returns the synthetic templated
summary embedding `T` (non-empty) and the fixed non-empty keyword list;
the summary can however come out empty on adversarial raw responses
whose extracted summary is a quote-wrapped whitespace run. -/
theorem parser_amended (raw title : List Char) :
    1 ≤ (parseAIResponse raw title).keywords.length ∧
    1 ≤ (summarizeAndExtract (.error "model down") title).keywords.length ∧
    (parseAIResponse [] "T".toList).summary =
      trimChars (stripQuotes (syntheticSummary "T".toList)) ∧
    (parseAIResponse [] "T".toList).summary ≠ [] ∧
    List.IsInfix "T".toList (parseAIResponse [] "T".toList).summary ∧
    (parseAIResponse [] "T".toList).keywords =
      fixedKeywords.map (fun k => trimChars (stripQuotes k)) ∧
    (parseAIResponse [] "T".toList).keywords ≠ [] := by
  refine ⟨?_, ?_, by decide, by decide, by decide, by decide, by decide⟩
  · rw [parse_keywords_length]
    exact keywordsChain_pos raw title
  · simp [summarizeAndExtract, aiErrorFallback, fixedKeywords]

/-- Witness for C3 amended at a concrete raw response and title. -/
theorem parser_amended_witness :
    1 ≤ (parseAIResponse "SUMMARY: ok".toList "Some Title".toList).keywords.length :=
  (parser_amended "SUMMARY: ok".toList "Some Title".toList).1

/-- The raw response of the C7 counterexample: nine comma-separated
keywords after the `KEYWORDS:` tag. -/
def rawC7 : List Char :=
  "KEYWORDS: alpha, beta, gamma, delta, epsilon, zeta, eta, theta, iota".toList

/-- Counterexample to C7: the tagged keyword extraction applies no upper
bound, so nine comma-separated tokens yield nine keywords, above the
claimed maximum of 8. -/
theorem keywords_bound_counterexample :
    (parseAIResponse rawC7 "Title".toList).keywords.length = 9 ∧
    ¬((parseAIResponse rawC7 "Title".toList).keywords.length ≤ 8) := by
  refine ⟨by decide, by decide⟩

/-- C7 amended: the keyword sequence always has at least one entry; there
is no 8-entry upper bound — the tagged extraction keeps every
comma-separated token — while all the fallback paths (comma-line scan,
title words, fixed set) return at most 5 entries. -/
theorem keywords_bound_amended (raw title : List Char) :
    1 ≤ (parseAIResponse raw title).keywords.length ∧
    (method1Keywords raw = [] → (parseAIResponse raw title).keywords.length ≤ 5) := by
  refine ⟨?_, ?_⟩
  · rw [parse_keywords_length]
    exact keywordsChain_pos raw title
  · intro h1
    rw [parse_keywords_length]
    unfold keywordsChain
    cases hc : commaKeywords raw with
    | none =>
        simp only [h1, List.length_nil, hc]
        exact ite_keywords_le _ _ (by simp) (titleKeywords_le title)
    | some ks =>
        have hks : ks.length ≤ 5 := commaKeywords_le raw ks hc
        simp only [h1, List.length_nil, hc]
        exact ite_keywords_le _ _ (by simpa using hks) (titleKeywords_le title)

/-- Witness for C7 amended: an untagged raw response yields between 1 and
5 keywords. -/
theorem keywords_bound_amended_witness :
    method1Keywords "no tags in this response".toList = [] ∧
    1 ≤ (parseAIResponse "no tags in this response".toList
      "My Great Title".toList).keywords.length ∧
    (parseAIResponse "no tags in this response".toList
      "My Great Title".toList).keywords.length ≤ 5 := by
  have h := keywords_bound_amended "no tags in this response".toList
    "My Great Title".toList
  exact ⟨by decide, h.1, h.2 (by decide)⟩

/-! ## Claim C4 — Chrome attempt resource cleanup -/

/-- C4: whenever an attempt created a tab, the attempt's trace carries
exactly one tab-close call for it on every exit path; whenever the
WebSocket was opened it is closed exactly once; and the cleanup outcome
flags never change the result returned to the caller. -/
theorem chrome_cleanup_once (env : ChromeEnv) (id : String)
    (h : ChromeEvent.tabCreated id ∈ (chromeAttempt env).2) :
    countTabClose (chromeAttempt env).2 id = 1 ∧
    (ChromeEvent.wsConnected ∈ (chromeAttempt env).2 →
      countWsClose (chromeAttempt env).2 = 1) ∧
    (∀ b c, (chromeAttempt { env with wsCloseOk := b, tabCloseOk := c }).1 =
      (chromeAttempt env).1) := by
  cases hct : env.createTab with
  | error e => simp [chromeAttempt, hct] at h
  | ok tabId =>
      cases hcn : env.connect with
      | error e =>
          have hid : id = tabId := by
            simp [chromeAttempt, hct, hcn, chromeCleanup] at h
            exact h
          subst hid
          refine ⟨?_, ?_, ?_⟩
          · simp [chromeAttempt, hct, hcn, chromeCleanup, countTabClose]
          · intro hws
            simp [chromeAttempt, hct, hcn, chromeCleanup] at hws
          · intro b c
            simp [chromeAttempt, hct, hcn]
      | ok u =>
          have hid : id = tabId := by
            simp [chromeAttempt, hct, hcn, chromeCleanup] at h
            exact h
          subst hid
          refine ⟨?_, ?_, ?_⟩
          · simp [chromeAttempt, hct, hcn, chromeCleanup, countTabClose]
          · intro hws
            simp [chromeAttempt, hct, hcn, chromeCleanup, countWsClose]
          · intro b c
            simp [chromeAttempt, hct, hcn, chromeAttemptBody]

/-- Environment of the C4 witness: the tab and WebSocket come up, a
protocol command then times out, and the WebSocket close itself fails. -/
def envC4 : ChromeEnv :=
  { createTab := .ok "tab-1", connect := .ok (),
    enableRuntime := .ok (), enablePage := .ok (), enableDom := .ok (),
    navigate := .ok (),
    extractRes := .error "Command timeout: DOM.getDocument",
    wsCloseOk := false, tabCloseOk := true }

/-- Witness for C4: on the command-timeout exit path the tab created is
closed exactly once and the WebSocket close is issued exactly once. -/
theorem chrome_cleanup_once_witness :
    ChromeEvent.tabCreated "tab-1" ∈ (chromeAttempt envC4).2 ∧
    countTabClose (chromeAttempt envC4).2 "tab-1" = 1 ∧
    countWsClose (chromeAttempt envC4).2 = 1 := by
  have h := chrome_cleanup_once envC4 "tab-1" (by decide)
  exact ⟨by decide, h.1, h.2.1 (by decide)⟩

end NewsRss
